import Mathlib

/-!
Verification development for the sklearn-porter KNeighborsClassifier adapter
(`sklearn_porter/estimator/KNeighborsClassifier/__init__.py`).

The adapter wraps one fitted scikit-learn KNeighborsClassifier, extracts
MetaInfo and ModelData at construction time, and `port` renders source code
for a target language in one of two template modes (Attached or Exported).

Modelling conventions:
- Python floats are modelled as `Rat` (values are only copied and converted
  to strings, never computed with, so exact rationals are a faithful carrier).
- Python exceptions become the `PyError` sum; fallible code returns `Except`.
- The process-global `json.encoder.FLOAT_REPR` hook is modelled as explicit
  state (`GlobalState`) threaded through `port`.
- Evaluation order that claims depend on (extraction before/after checks,
  template loading) is recorded as an explicit `Event` trace.
-/

namespace SkPorter

/-- Modelled from the spec: the `Language` enumeration lives in
`sklearn_porter/enums.py`, which is not under `src/`. The adapter's SUPPORT
table (source lines 32-49) names only JAVA and JS; `c` stands for the other
members of the enumeration (the spec mentions an "enumerated set of supported
target languages", e.g. for embedded targets), so that a language outside the
adapter's table is expressible. -/
inductive Language
  | java
  | js
  | c
deriving DecidableEq

/-- Modelled from the spec: the `Template` enumeration (output mode) from
`sklearn_porter/enums.py`, not under `src/`: Attached embeds data inline,
Exported emits a class plus an external data document. -/
inductive Template
  | attached
  | exported
deriving DecidableEq

/-- Modelled from the spec: the `Method` enumeration from
`sklearn_porter/enums.py`, not under `src/`. The spec's request surface names
`Predict` and `PredictProbabilities`; only Predict occurs in this adapter's
SUPPORT table. -/
inductive Method
  | predict
  | predictProba
deriving DecidableEq

/-- Modelled from the spec: `Method.value`, the string value of the enum
member (used for the default `method_name` placeholder). -/
def Method.value : Method → String
  | .predict => "predict"
  | .predictProba => "predict_proba"

/-- Python exceptions that can escape the adapter. The first four are the
spec's declared error kinds; `typeError` and `indexError` model unhandled
built-in Python exceptions. -/
inductive PyError
  | notFittedEstimatorError (name : String)
  | notSupportedYetError (msg : String)
  | capabilityError (field : String)
  | missingTemplateError (name : String)
  | typeError (msg : String)
  | indexError
deriving DecidableEq

/-- The four error kinds declared in the spec's error-handling design
(section 7); TypeError and IndexError are not among them. -/
def declaredError : PyError → Bool
  | .notFittedEstimatorError _ => true
  | .notSupportedYetError _ => true
  | .capabilityError _ => true
  | .missingTemplateError _ => true
  | .typeError _ => false
  | .indexError => false

/-- Observable side steps of the adapter, recorded in order: MetaInfo
extraction (source lines 68-73), ModelData extraction (lines 78-84) and
template loading (`self._load_templates`, line 133). -/
inductive Event
  | extractMetaInfo
  | extractModelData
  | loadTemplates
deriving DecidableEq

/-- Python float values carried by the model (exact carrier; the adapter only
copies values and hands them to string converters). -/
abbrev Flo := Rat

/-- A caller-supplied numeric converter (`kwargs.get('converter')`): a
function from a float value to its target-language literal. -/
abbrev Conv := Flo → String

/-- The process-global attribute `json.encoder.FLOAT_REPR`. `pyDefault` is
the value present at interpreter start; `lambdaOf conv` is the value written
by source line 140 (`encoder.FLOAT_REPR = lambda o: converter(o)`). Under
Python 3 this attribute is dead state: `json.dumps` never reads it (the
stdlib encoder hard-binds `float.__repr__`), but the assignment itself is a
real, persistent process-global mutation. -/
inductive FloatHook
  | pyDefault
  | lambdaOf (conv : Option Conv)

/-- The default float formatting Python 3's `json.dumps` actually uses for
every float (`float.__repr__`), modelled as the canonical decimal rendering
of the exact carried value; the program's exact decimal formatting of binary
floats is not modelled further, only the fact that it is the default
rendering and not the converter. -/
def pyFloatRepr (q : Flo) : String := toString q

/-- Process-global mutable state touched by the adapter: the
`json.encoder.FLOAT_REPR` hook. -/
structure GlobalState where
  floatRepr : FloatHook

/-- Placeholder values: Python strings, ints, bools and None as they occur in
the placeholder mapping handed to class templates. -/
inductive PVal
  | s (v : String)
  | n (v : Nat)
  | b (v : Bool)
  | non
deriving DecidableEq

/-- `kwargs.get(...)` on an optional string: a missing key yields None. -/
def PVal.ofOptStr : Option String → PVal
  | some v => .s v
  | none => .non

/-- Python `dict.update`: existing keys keep their position and get the new
value; new keys are appended in order. -/
def dictUpdate (d u : List (String × PVal)) : List (String × PVal) :=
  (d.map fun kv =>
    match u.find? (fun x => x.1 == kv.1) with
    | some x => (kv.1, x.2)
    | none => kv) ++
  u.filter fun x => d.all fun kv => !(kv.1 == x.1)

/-- The fitted estimator's attributes consumed by the adapter.
`classes_` is `none` when the attribute is missing (unfitted estimator:
accessing it raises AttributeError). `fit_X` models `_fit_X` (the training
example matrix), `y` models `_y.astype(int).tolist()` (encoded labels),
and `n_neighbors`, `p`, `weights`, `metric` are the hyperparameters read. -/
structure Estimator where
  classes_ : Option (List Int)
  fit_X : List (List Flo)
  y : List Int
  n_neighbors : Nat
  p : Nat
  weights : String
  metric : String

/-- MetaInfo: the scalar facts extracted at construction (source lines
68-73). -/
structure MetaInfo where
  n_classes : Nat
  n_templates : Nat
  n_features : Nat
  metric : String
deriving DecidableEq

/-- ModelData: the numeric artifacts extracted at construction (source lines
78-84). -/
structure ModelData where
  X : List (List Flo)
  y : List Int
  k : Nat
  n : Nat
  power : Nat

/-- The constructed adapter: the wrapped estimator, the base placeholder
mapping, MetaInfo and ModelData. -/
structure Adapter where
  estimator : Estimator
  placeholders : List (String × PVal)
  meta_info : MetaInfo
  model_data : ModelData

/-- The adapter's estimator name (`self.estimator_name`). -/
def estimator_name : String := "KNeighborsClassifier"

/-- Modelled from the spec: the base placeholder mapping prepared by the
estimator base class (`EstimatorBase`, not under `src/`); each port call deep
copies it (source line 122) before merging request naming and MetaInfo. -/
def basePlaceholders : List (String × PVal) :=
  [("estimator_name", .s estimator_name)]

/-- `DEFAULT_LANGUAGE` (source line 28). -/
def DEFAULT_LANGUAGE : Language := .java

/-- `DEFAULT_TEMPLATE` (source line 29). -/
def DEFAULT_TEMPLATE : Template := .attached

/-- `DEFAULT_METHOD` (source line 30). -/
def DEFAULT_METHOD : Method := .predict

/-- The Java row of the SUPPORT table (source lines 33-40). -/
def SUPPORT_JAVA : Template → Option (List Method)
  | .attached => some [Method.predict]
  | .exported => some [Method.predict]

/-- The JS row of the SUPPORT table (source lines 41-48). -/
def SUPPORT_JS : Template → Option (List Method)
  | .attached => some [Method.predict]
  | .exported => some [Method.predict]

/-- The adapter's SUPPORT table (source lines 32-49): a nested mapping
language to mode to set of supported methods; languages outside the table
(here `c`) have no entry. -/
def SUPPORT : Language → Option (Template → Option (List Method))
  | .java => some SUPPORT_JAVA
  | .js => some SUPPORT_JS
  | .c => none

/-- Modelled from the spec: `EstimatorBase.check` is not under `src/`; per the
spec (section 4.2), any omitted field is replaced by the kind's declared
default, then the resolved triple is validated against the SUPPORT table: an
absent (language, mode) pair or a method outside the pair's supported set is a
capability error naming the offending field, never a fallback. -/
def check (oL : Option Language) (oT : Option Template) (oM : Option Method) :
    Except PyError (Method × Language × Template) :=
  let lang := oL.getD DEFAULT_LANGUAGE
  let tplm := oT.getD DEFAULT_TEMPLATE
  let mth := oM.getD DEFAULT_METHOD
  match SUPPORT lang with
  | none => .error (.capabilityError "language")
  | some tbl =>
    match tbl tplm with
    | none => .error (.capabilityError "template")
    | some ms => if mth ∈ ms then .ok (mth, lang, tplm) else .error (.capabilityError "method")

/-- The adapter constructor (source lines 53-87): checks fitted state via
`classes_` (AttributeError becomes NotFittedEstimatorError), rejects
non-uniform weights with NotSupportedYetError, then extracts MetaInfo and
ModelData (`len(est._fit_X[0])` raises IndexError on an empty matrix). The
second component is the trace of extraction events. -/
def mkAdapter (est : Estimator) : Except PyError Adapter × List Event :=
  match est.classes_ with
  | none => (.error (.notFittedEstimatorError estimator_name), [])
  | some cls =>
    if est.weights ≠ "uniform" then
      (.error (.notSupportedYetError "Only `uniform` weights are supported."), [])
    else
      match est.fit_X with
      | [] => (.error .indexError, [])
      | x0 :: xs =>
        (.ok
          { estimator := est
            placeholders := basePlaceholders
            meta_info :=
              { n_classes := cls.length
                n_templates := (x0 :: xs).length
                n_features := x0.length
                metric := est.metric }
            model_data :=
              { X := x0 :: xs
                y := est.y
                k := est.n_neighbors
                n := cls.length
                power := est.p } },
         [Event.extractMetaInfo, Event.extractModelData])

/-- Modelled from the spec: the per-language template set returned by
`EstimatorBase._load_templates` (not under `src/`). Section 4.3: loading is
keyed only by language and exposes lookup by name; the names used by this
adapter (lines 137, 145-149, 172) are the fields below. Generic templates
render with positional data; class templates render with the placeholder
mapping. -/
structure TemplateSet where
  intT : String
  doubleT : String
  arr1 : String → String → String → Nat → String
  arr2 : String → String → String → Nat → Nat → String
  inBrackets : String → String
  attachedClass : List (String × PVal) → String
  exportedClass : List (String × PVal) → String

/-- The request surface of `port` (source lines 89-95 plus `kwargs`):
optional language and template, the JSON flag, naming overrides and the
numeric converter from `kwargs`. -/
structure Request where
  language : Option Language
  template : Option Template
  toJson : Bool
  className : Option String
  methodName : Option String
  converter : Option Conv

/-- The result of a port call: a single source string (Attached) or a
(class source, data document) pair (Exported). -/
inductive PortResult
  | single (out : String)
  | pair (out_class : String) (model_data : String)
deriving DecidableEq

/-- Effectful map over a list in the `Except` monad, stopping at the first
error (Python semantics of forcing a generator of fallible steps). -/
def mapE {α β : Type} (f : α → Except PyError β) : List α → Except PyError (List β)
  | [] => .ok []
  | a :: t =>
    match f a with
    | .error e => .error e
    | .ok b =>
      match mapE f t with
      | .error e => .error e
      | .ok bs => .ok (b :: bs)

/-- Python 3 `list(map(converter, v))` when `converter` may be None
(`kwargs.get('converter')` missing): mapping None over a nonempty list raises
TypeError at the first element; over an empty list it yields []. -/
def pyMap (conv : Option Conv) (v : List Flo) : Except PyError (List String) :=
  match conv, v with
  | some f, v => .ok (v.map f)
  | none, [] => .ok []
  | none, _ :: _ => .error (.typeError "NoneType object is not callable")

/-- The per-row rendering of the training matrix (source lines 155-161): each
row's values are converted, joined with a comma-space separator and wrapped in
brackets; rows are produced in order, the first failing row aborting. -/
def renderRows (ts : TemplateSet) (conv : Option Conv) (X : List (List Flo)) :
    Except PyError (List String) :=
  mapE
    (fun v =>
      match pyMap conv v with
      | .error e => .error e
      | .ok parts => .ok (ts.inBrackets (String.intercalate ", " parts)))
    X

/-- The assembled `x_str` (source lines 152-164): the two-dimensional array
template applied to the double type, the name `X`, the joined wrapped rows,
the row count `n` and the first-row length `m`. -/
def xStrOf (ts : TemplateSet) (rows : List String) (n m : Nat) : String :=
  ts.arr2 ts.doubleT "X" (String.intercalate ", " rows) n m

/-- The assembled `y_str` (source lines 166-169): the one-dimensional array
template applied to the int type, the name `y`, the joined stringified labels
and their count. -/
def yStrOf (ts : TemplateSet) (y_val : List String) : String :=
  ts.arr1 ts.intT "y" (String.intercalate ", " y_val) y_val.length

/-- One row of the JSON data document: under Python 3, `json.dumps` formats
every float with `float.__repr__` — the `FLOAT_REPR` hook installed at source
line 140 is never consulted — and joins the literals with the compact
separator inside brackets. -/
def dumpsRow (r : List Flo) : String :=
  "[" ++ String.intercalate "," (r.map pyFloatRepr) ++ "]"

/-- `dumps(self.model_data, separators=(',', ':'))` (source line 141) on the
adapter's ModelData dict, whose insertion order is X, y, k, n, power: floats
are rendered by the interpreter's default float repr (Python 3's json ignores
`encoder.FLOAT_REPR`), ints through `str`. Serializing this dict cannot
fail. -/
def dumpsModelData (md : ModelData) : String :=
  "\x7b\"X\":[" ++ String.intercalate "," (md.X.map dumpsRow) ++
    "],\"y\":[" ++ String.intercalate "," (md.y.map fun i => toString i) ++
    "],\"k\":" ++ toString md.k ++
    ",\"n\":" ++ toString md.n ++
    ",\"power\":" ++ toString md.power ++ "\x7d"

/-- The MetaInfo entries merged into the placeholders (source line 130). -/
def metaPlas (mi : MetaInfo) : List (String × PVal) :=
  [("n_classes", .n mi.n_classes), ("n_templates", .n mi.n_templates),
   ("n_features", .n mi.n_features), ("metric", .s mi.metric)]

/-- The placeholder mapping built by each port call (source lines 117-130): a
fresh copy of the base placeholders updated with the request's naming
(`class_name`, defaulted `method_name`, `to_json`) and then with MetaInfo. -/
def plasOf (a : Adapter) (req : Request) (mth : Method) : List (String × PVal) :=
  dictUpdate
    (dictUpdate a.placeholders
      [("class_name", PVal.ofOptStr req.className),
       ("method_name", .s (req.methodName.getD mth.value)),
       ("to_json", .b req.toJson)])
    (metaPlas a.meta_info)

/-- The body of `port` after a successful capability check (source lines
117-183). In Exported mode (lines 136-142) the class template is rendered,
the process-global float hook is overwritten with a lambda over the request's
converter — a dead store under Python 3 — and the data document is then
serialized with the default float repr, which Python 3's json uses
regardless of that hook. In Attached mode
(lines 144-183) the rows of `X` are rendered first (TypeError surfaces here
when the converter is missing), `len(x_val[0])` raises IndexError on an empty
matrix, and the attached class template is rendered over the placeholders
extended with the literals and scalars. -/
def portChecked (tpls : Language → TemplateSet) (a : Adapter) (req : Request)
    (mth : Method) (lang : Language) (tplm : Template) (g : GlobalState) :
    Except PyError PortResult × List Event × GlobalState :=
  let converter := req.converter
  let plas := plasOf a req mth
  let ts := tpls lang
  match tplm with
  | .exported =>
    let out_class := ts.exportedClass plas
    let g2 : GlobalState := { g with floatRepr := FloatHook.lambdaOf converter }
    let model_data := dumpsModelData a.model_data
    (.ok (.pair out_class model_data), [Event.loadTemplates], g2)
  | .attached =>
    match renderRows ts converter a.model_data.X with
    | .error e => (.error e, [Event.loadTemplates], g)
    | .ok rows =>
      match a.model_data.X with
      | [] => (.error .indexError, [Event.loadTemplates], g)
      | x0 :: _ =>
        let x_str := xStrOf ts rows a.model_data.X.length x0.length
        let y_val := a.model_data.y.map fun i => toString i
        let y_str := yStrOf ts y_val
        let plas2 := dictUpdate plas
          [("X", .s x_str), ("y", .s y_str),
           ("k", .n a.model_data.k), ("n", .n a.model_data.n),
           ("power", .n a.model_data.power)]
        (.ok (.single (ts.attachedClass plas2)), [Event.loadTemplates], g)

/-- `KNeighborsClassifier.port` (source lines 89-183): resolve the request
through `check` (line 113, method left to its default), then render. A failed
check surfaces the capability error with no events and no state change. -/
def port (tpls : Language → TemplateSet) (a : Adapter) (req : Request)
    (g : GlobalState) : Except PyError PortResult × List Event × GlobalState :=
  match check req.language req.template none with
  | .error e => (.error e, [], g)
  | .ok (mth, lang, tplm) => portChecked tpls a req mth lang tplm g

/-- The user-level flow: construct the adapter for an estimator, then port.
Construction failure surfaces before any port work. -/
def portEstimator (tpls : Language → TemplateSet) (est : Estimator)
    (req : Request) (g : GlobalState) :
    Except PyError PortResult × List Event × GlobalState :=
  match mkAdapter est with
  | (.error e, evs) => (.error e, evs, g)
  | (.ok a, evs) =>
    let r := port tpls a req g
    (r.1, evs ++ r.2.1, r.2.2)

/-- The per-row cells of the matrix after conversion: each float mapped
through the converter, rows kept in order. Both output modes embed exactly
these literals for `X`. -/
def cellsOf (f : Conv) (X : List (List Flo)) : List (List String) :=
  X.map fun r => r.map f

/-- Follows the words of the spec: the exported data document as it would be
assembled if every float literal came from already-converted cells — the
document the spec demands, compared against `dumpsModelData`, which is what
the code actually produces. -/
def exportedDoc (cells : List (List String)) (ys : List String)
    (k n power : Nat) : String :=
  "\x7b\"X\":[" ++
    String.intercalate "," (cells.map fun r => "[" ++ String.intercalate "," r ++ "]") ++
    "],\"y\":[" ++ String.intercalate "," ys ++
    "],\"k\":" ++ toString k ++
    ",\"n\":" ++ toString n ++
    ",\"power\":" ++ toString power ++ "\x7d"

/-! ### Concrete fixtures used by witnesses and counterexamples -/

/-- A concrete numeric converter (a Java-style literal formatter). -/
def f0 : Conv := fun q => toString q ++ "d"

/-- A concrete template set: simple bracketed renderings, enough to evaluate
the engine end to end. -/
def ts0 : TemplateSet :=
  { intT := "int"
    doubleT := "double"
    arr1 := fun ty nm vals n =>
      ty ++ "[" ++ toString n ++ "] " ++ nm ++ " = \x7b" ++ vals ++ "\x7d;"
    arr2 := fun ty nm vals n m =>
      ty ++ "[" ++ toString n ++ "][" ++ toString m ++ "] " ++ nm ++
        " = \x7b" ++ vals ++ "\x7d;"
    inBrackets := fun v => "\x7b" ++ v ++ "\x7d"
    attachedClass := fun _ => "attached-out"
    exportedClass := fun _ => "exported-out" }

/-- A concrete template loader: every language resolves to `ts0`. -/
def tpls0 : Language → TemplateSet := fun _ => ts0

/-- A concrete fitted estimator: 3 classes, 2 training rows, 2 features,
k = 5, p = 2, uniform weights. -/
def est0 : Estimator :=
  { classes_ := some [0, 1, 2]
    fit_X := [[1, 2], [3, 4]]
    y := [0, 1]
    n_neighbors := 5
    p := 2
    weights := "uniform"
    metric := "minkowski" }

/-- The adapter that `mkAdapter` builds from `est0`. -/
def a0 : Adapter :=
  { estimator := est0
    placeholders := basePlaceholders
    meta_info := { n_classes := 3, n_templates := 2, n_features := 2, metric := "minkowski" }
    model_data := { X := [[1, 2], [3, 4]], y := [0, 1], k := 5, n := 3, power := 2 } }

/-- A concrete unfitted estimator (missing `classes_`). -/
def estUnfitted : Estimator :=
  { classes_ := none
    fit_X := []
    y := []
    n_neighbors := 5
    p := 2
    weights := "uniform"
    metric := "minkowski" }

/-- A concrete fitted estimator with distance weighting. -/
def estDistance : Estimator :=
  { est0 with weights := "distance" }

/-- The initial global state: the interpreter's default float hook. -/
def g0 : GlobalState := { floatRepr := .pyDefault }

/-- A concrete Exported-mode request carrying the converter `f0`. -/
def reqExp : Request :=
  { language := some .java
    template := some .exported
    toJson := false
    className := none
    methodName := none
    converter := some f0 }

/-- A concrete Attached-mode request carrying the converter `f0`. -/
def reqAtt : Request :=
  { reqExp with template := some .attached }

/-- A concrete Attached-mode request with no converter supplied. -/
def reqNoConv : Request :=
  { reqAtt with converter := none }

/-- A concrete request for a language outside the SUPPORT table. -/
def reqC : Request :=
  { reqAtt with language := some .c }

/-- A value-altering converter: appends a zero digit to the canonical
literal, so the produced literal denotes ten times the model value — a
converter the engine accepts unconditionally but whose literals denote
different values than the model data. -/
def fBad : Conv := fun q => toString q ++ "0"

/-- Placeholder lookup by key (first binding wins). -/
def lookupPlas (k : String) (plas : List (String × PVal)) : PVal :=
  ((plas.find? fun kv => kv.1 == k).map Prod.snd).getD PVal.non

/-- A template set that exposes the rendered `X` literal verbatim: the array
templates return just the joined values and the attached class template
returns the `X` placeholder, so the inline numeric literals are directly
observable in the output. -/
def tsShow : TemplateSet :=
  { intT := "int"
    doubleT := "double"
    arr1 := fun _ _ values _ => values
    arr2 := fun _ _ values _ _ => values
    inBrackets := fun v => "[" ++ v ++ "]"
    attachedClass := fun plas =>
      match lookupPlas "X" plas with
      | .s v => v
      | _ => ""
    exportedClass := fun _ => "" }

/-- The template loader resolving every language to `tsShow`. -/
def tplsShow : Language → TemplateSet := fun _ => tsShow

/-- Attached-mode request carrying the value-altering converter. -/
def reqAttBad : Request :=
  { reqAtt with converter := some fBad }

/-- Exported-mode request carrying the value-altering converter. -/
def reqExpBad : Request :=
  { reqExp with converter := some fBad }

/-! ### Helper lemmas -/

theorem mapE_ok {α β : Type} (f : α → Except PyError β) (g : α → β)
    (hg : ∀ a, f a = .ok (g a)) :
    ∀ l : List α, mapE f l = .ok (l.map g) := by
  intro l
  induction l with
  | nil => rfl
  | cons a t ih => simp [mapE, hg, ih]

theorem renderRows_some (ts : TemplateSet) (f : Conv) (X : List (List Flo)) :
    renderRows ts (some f) X =
      .ok (X.map fun v => ts.inBrackets (String.intercalate ", " (v.map f))) := by
  unfold renderRows
  exact mapE_ok _ _ (fun v => by simp [pyMap]) X

theorem renderRows_none_headNonempty (ts : TemplateSet) (q : Flo)
    (r : List Flo) (t : List (List Flo)) :
    renderRows ts none ((q :: r) :: t) =
      .error (.typeError "NoneType object is not callable") := by
  simp [renderRows, mapE, pyMap]

theorem dumps_eq_reprDoc (md : ModelData) :
    dumpsModelData md =
      exportedDoc (md.X.map fun r => r.map pyFloatRepr)
        (md.y.map fun i => toString i) md.k md.n md.power := by
  unfold dumpsModelData exportedDoc dumpsRow
  simp [List.map_map, Function.comp_def]

theorem portChecked_exported_eq (tpls : Language → TemplateSet) (a : Adapter)
    (req : Request) (mth : Method) (lang : Language) (g : GlobalState) :
    portChecked tpls a req mth lang .exported g =
      (.ok (.pair ((tpls lang).exportedClass (plasOf a req mth))
        (dumpsModelData a.model_data)),
       [Event.loadTemplates],
       { floatRepr := FloatHook.lambdaOf req.converter }) := rfl

theorem portChecked_attached_eq (tpls : Language → TemplateSet) (a : Adapter)
    (req : Request) (mth : Method) (lang : Language) (g : GlobalState)
    (f : Conv) (x0 : List Flo) (xs : List (List Flo))
    (hf : req.converter = some f) (hX : a.model_data.X = x0 :: xs) :
    portChecked tpls a req mth lang .attached g =
      (.ok (.single ((tpls lang).attachedClass (dictUpdate (plasOf a req mth)
        [("X", .s (xStrOf (tpls lang)
            ((x0 :: xs).map fun v =>
              (tpls lang).inBrackets (String.intercalate ", " (v.map f)))
            (x0 :: xs).length x0.length)),
         ("y", .s (yStrOf (tpls lang) (a.model_data.y.map fun i => toString i))),
         ("k", .n a.model_data.k), ("n", .n a.model_data.n),
         ("power", .n a.model_data.power)]))),
       [Event.loadTemplates], g) := by
  simp only [portChecked, hf, hX, renderRows_some]

theorem portChecked_fst_indep (tpls : Language → TemplateSet) (a : Adapter)
    (req : Request) (mth : Method) (lang : Language) (tplm : Template)
    (h h2 : GlobalState) :
    (portChecked tpls a req mth lang tplm h).1 =
      (portChecked tpls a req mth lang tplm h2).1 := by
  cases tplm with
  | exported => rfl
  | attached =>
    cases hX : a.model_data.X with
    | nil =>
      cases hr : renderRows (tpls lang) req.converter [] with
      | error e => simp [portChecked, hX, hr]
      | ok rows => simp [portChecked, hX, hr]
    | cons x0 xs =>
      cases hr : renderRows (tpls lang) req.converter (x0 :: xs) with
      | error e => simp [portChecked, hX, hr]
      | ok rows => simp [portChecked, hX, hr]

theorem portChecked_state (tpls : Language → TemplateSet) (a : Adapter)
    (req : Request) (mth : Method) (lang : Language) (g : GlobalState) :
    (portChecked tpls a req mth lang .attached g).2.2 = g ∧
    (portChecked tpls a req mth lang .exported g).2.2 =
      { floatRepr := FloatHook.lambdaOf req.converter } := by
  constructor
  · cases hX : a.model_data.X with
    | nil =>
      cases hr : renderRows (tpls lang) req.converter [] with
      | error e => simp [portChecked, hX, hr]
      | ok rows => simp [portChecked, hX, hr]
    | cons x0 xs =>
      cases hr : renderRows (tpls lang) req.converter (x0 :: xs) with
      | error e => simp [portChecked, hX, hr]
      | ok rows => simp [portChecked, hX, hr]
  · rfl

/-! ### Claim theorems -/

/-- Claim C1: every omitted request field is replaced by the kind's declared
default (Java, Attached, Predict); the resolved triple is validated against
SUPPORT: an absent (language, mode) pair or a method outside the pair's set
fails with a capability error naming the offending field, and a failed check
makes `port` fail with that error, producing no output, loading no template
and never falling back to a different combination. -/
theorem c1_check_defaults_and_capability (oL : Option Language) (oT : Option Template) :
    (SUPPORT (oL.getD DEFAULT_LANGUAGE) = none →
        check oL oT none = .error (.capabilityError "language")) ∧
    (∀ tbl, SUPPORT (oL.getD DEFAULT_LANGUAGE) = some tbl →
        tbl (oT.getD DEFAULT_TEMPLATE) = none →
        check oL oT none = .error (.capabilityError "template")) ∧
    (∀ tbl ms, SUPPORT (oL.getD DEFAULT_LANGUAGE) = some tbl →
        tbl (oT.getD DEFAULT_TEMPLATE) = some ms →
        ((DEFAULT_METHOD ∈ ms →
            check oL oT none =
              .ok (DEFAULT_METHOD, oL.getD DEFAULT_LANGUAGE, oT.getD DEFAULT_TEMPLATE)) ∧
          (DEFAULT_METHOD ∉ ms →
            check oL oT none = .error (.capabilityError "method")))) ∧
    (∀ tpls a req g e, req.language = oL → req.template = oT →
        check oL oT none = .error e →
        port tpls a req g = (.error e, [], g)) := by
  refine ⟨?_, ?_, ?_, ?_⟩
  · intro h; simp [check, h]
  · intro tbl h1 h2; simp [check, h1, h2]
  · intro tbl ms h1 h2
    exact ⟨fun hm => by simp [check, h1, h2, hm], fun hm => by simp [check, h1, h2, hm]⟩
  · intro tpls a req g e h1 h2 hc
    simp [port, h1, h2, hc]

theorem c1_witness :
    check none none none = .ok (Method.predict, Language.java, Template.attached) ∧
    check (some Language.c) none none = .error (.capabilityError "language") ∧
    port tpls0 a0 reqC g0 = (.error (.capabilityError "language"), [], g0) := by
  refine ⟨?_, ?_, ?_⟩
  · exact ((c1_check_defaults_and_capability none none).2.2.1 SUPPORT_JAVA
      [Method.predict] rfl rfl).1 (by decide)
  · exact (c1_check_defaults_and_capability (some Language.c) none).1 rfl
  · exact (c1_check_defaults_and_capability (some Language.c) (some Template.attached)).2.2.2
      tpls0 a0 reqC g0 (.capabilityError "language") rfl rfl rfl

/-- Claim C2: an estimator lacking `classes_` fails construction with
NotFittedEstimatorError before any MetaInfo/ModelData extraction (empty event
trace), and the combined construct-then-port flow fails with the same error
for every request, before any template is loaded. -/
theorem c2_unfitted_fails_before_extraction (est : Estimator)
    (h : est.classes_ = none) :
    mkAdapter est = (.error (.notFittedEstimatorError estimator_name), []) ∧
    ∀ tpls req g, portEstimator tpls est req g =
      (.error (.notFittedEstimatorError estimator_name), [], g) := by
  have hm : mkAdapter est = (.error (.notFittedEstimatorError estimator_name), []) := by
    simp [mkAdapter, h]
  exact ⟨hm, fun tpls req g => by simp [portEstimator, hm]⟩

theorem c2_witness :
    mkAdapter estUnfitted = (.error (.notFittedEstimatorError estimator_name), []) ∧
    portEstimator tpls0 estUnfitted reqAtt g0 =
      (.error (.notFittedEstimatorError estimator_name), [], g0) :=
  ⟨(c2_unfitted_fails_before_extraction estUnfitted rfl).1,
   (c2_unfitted_fails_before_extraction estUnfitted rfl).2 tpls0 reqAtt g0⟩

/-- Claim C3: a fitted estimator whose weighting scheme is not `uniform`
fails construction with NotSupportedYetError naming the unsupported option,
with an empty event trace: no MetaInfo or ModelData extraction happens. -/
theorem c3_nonuniform_weights_rejected (est : Estimator) (cls : List Int)
    (h1 : est.classes_ = some cls) (h2 : est.weights ≠ "uniform") :
    mkAdapter est =
      (.error (.notSupportedYetError "Only `uniform` weights are supported."), []) := by
  simp [mkAdapter, h1, h2]

theorem c3_witness :
    mkAdapter estDistance =
      (.error (.notSupportedYetError "Only `uniform` weights are supported."), []) :=
  c3_nonuniform_weights_rejected estDistance [0, 1, 2] rfl (by decide)

/-- Claim C6: the scalar MetaInfo fields of a successfully constructed
adapter equal the counts derivable from the estimator's raw arrays: the
number of class labels, the number of training rows, and the length of the
first training row. -/
theorem c6_meta_info_counts (est : Estimator) (cls : List Int) (a : Adapter)
    (evs : List Event) (h1 : est.classes_ = some cls)
    (h2 : mkAdapter est = (.ok a, evs)) :
    a.meta_info.n_classes = cls.length ∧
    a.meta_info.n_templates = est.fit_X.length ∧
    ∀ x0 xs, est.fit_X = x0 :: xs → a.meta_info.n_features = x0.length := by
  unfold mkAdapter at h2
  rw [h1] at h2
  dsimp only at h2
  by_cases hw : est.weights ≠ "uniform"
  · simp [hw] at h2
  · rw [if_neg hw] at h2
    cases hX : est.fit_X with
    | nil => rw [hX] at h2; simp at h2
    | cons x0 xs =>
      rw [hX] at h2
      simp only [Prod.mk.injEq, Except.ok.injEq] at h2
      obtain ⟨ha, -⟩ := h2
      subst ha
      refine ⟨rfl, by simp [hX], ?_⟩
      intro x0a xsa hXa
      injection hXa with hh _
      rw [← hh]

theorem c6_witness :
    a0.meta_info.n_classes = ([0, 1, 2] : List Int).length ∧
    a0.meta_info.n_templates = est0.fit_X.length ∧
    a0.meta_info.n_features = ([1, 2] : List Flo).length := by
  obtain ⟨h1, h2, h3⟩ := c6_meta_info_counts est0 [0, 1, 2] a0
    [Event.extractMetaInfo, Event.extractModelData] rfl rfl
  exact ⟨h1, h2, h3 [1, 2] [[3, 4]] rfl⟩

/-- Claim C4 fails on the code: porting the same estimator with the same
converter in both modes embeds different numeric values. With the
value-altering converter `fBad` (times ten), the Attached output inlines the
converter literals 10, 20, 30, 40 while the Exported data document carries
the default-repr literals 1, 2, 3, 4, because Python 3's `json.dumps`
ignores the `FLOAT_REPR` hook that source line 140 installs, so the
converter never touches the document. The literal `fBad` produces for the
model value 1 is the canonical literal of 10, the document's literal for the
same cell is the canonical literal of 1, and 10 is not 1: after parsing, the
two modes do not carry the same values. -/
theorem c4_attached_exported_values_diverge :
    (port tplsShow a0 reqAttBad g0).1 = .ok (.single "[10, 20], [30, 40]") ∧
    (port tplsShow a0 reqExpBad g0).1 =
      .ok (.pair ""
        "\x7b\"X\":[[1,2],[3,4]],\"y\":[0,1],\"k\":5,\"n\":3,\"power\":2\x7d") ∧
    fBad 1 = toString (10 : Flo) ∧ pyFloatRepr 1 = toString (1 : Flo) ∧
    (10 : Flo) ≠ 1 := by
  refine ⟨rfl, rfl, rfl, rfl, by decide⟩

/-- Claim C5: `port` is deterministic: its result does not depend on the
incoming process-global state, so porting the same adapter twice with the
identical request and converter — the second call running in the state the
first call left behind — yields an identical result. -/
theorem c5_port_deterministic (tpls : Language → TemplateSet) (a : Adapter)
    (req : Request) (g g2 : GlobalState) :
    (port tpls a req g).1 = (port tpls a req g2).1 ∧
    (port tpls a req ((port tpls a req g).2.2)).1 = (port tpls a req g).1 := by
  have key : ∀ h h2 : GlobalState, (port tpls a req h).1 = (port tpls a req h2).1 := by
    intro h h2
    unfold port
    cases hc : check req.language req.template none with
    | error e => rfl
    | ok r =>
      obtain ⟨mth, lang, tplm⟩ := r
      exact portChecked_fst_indep tpls a req mth lang tplm h h2
  exact ⟨key g g2, key _ g⟩

/-- Claim C7: in Attached mode the matrix literal is assembled by a recursive
render per row — each row independently converted, joined with a separator,
wrapped via the bracket template — and the wrapped rows joined and passed to
the two-dimensional array template with the row count and the first-row
column count; the label array goes through the one-dimensional array template
with its element count. -/
theorem c7_attached_row_render (tpls : Language → TemplateSet) (a : Adapter)
    (req : Request) (g : GlobalState) (mth : Method) (lang : Language)
    (f : Conv) (x0 : List Flo) (xs : List (List Flo))
    (hc : check req.language req.template none = .ok (mth, lang, .attached))
    (hf : req.converter = some f) (hX : a.model_data.X = x0 :: xs) :
    port tpls a req g =
      (.ok (.single ((tpls lang).attachedClass (dictUpdate (plasOf a req mth)
        [("X", .s (xStrOf (tpls lang)
            ((x0 :: xs).map fun v =>
              (tpls lang).inBrackets (String.intercalate ", " (v.map f)))
            (x0 :: xs).length x0.length)),
         ("y", .s (yStrOf (tpls lang) (a.model_data.y.map fun i => toString i))),
         ("k", .n a.model_data.k), ("n", .n a.model_data.n),
         ("power", .n a.model_data.power)]))),
       [Event.loadTemplates], g) := by
  unfold port
  rw [hc]
  exact portChecked_attached_eq tpls a req mth lang g f x0 xs hf hX

theorem c7_witness :
    port tpls0 a0 reqAtt g0 =
      (.ok (.single "attached-out"), [Event.loadTemplates], g0) := by
  rw [c7_attached_row_render tpls0 a0 reqAtt g0 Method.predict Language.java
    f0 [1, 2] [[3, 4]] rfl rfl rfl]
  rfl

/-- Claim C8 fails on the code in Exported mode: no float of the data
document passes through the converter. At a concrete Exported port call with
converter `f0` (which appends a `d` suffix), the emitted document formats
every float with the default float repr — source line 140's
`encoder.FLOAT_REPR` assignment is dead under Python 3, whose json always
uses `float.__repr__` — and so differs from the document the claim demands,
in which every float cell is a converter output. -/
theorem c8_exported_floats_bypass_converter :
    port tpls0 a0 reqExp g0 =
      (.ok (.pair "exported-out"
        "\x7b\"X\":[[1,2],[3,4]],\"y\":[0,1],\"k\":5,\"n\":3,\"power\":2\x7d"),
       [Event.loadTemplates],
       { floatRepr := FloatHook.lambdaOf (some f0) }) ∧
    dumpsModelData a0.model_data ≠
      exportedDoc (cellsOf f0 a0.model_data.X)
        (a0.model_data.y.map fun i => toString i)
        a0.model_data.k a0.model_data.n a0.model_data.power := by
  refine ⟨rfl, by decide⟩

/-- Claim C9, counterexample: an Exported-mode port call does mutate
process-global state: with the default float hook installed, the global state
after the call differs from the state before it (source line 140 overwrites
`json.encoder.FLOAT_REPR` and never restores it). -/
theorem c9_counterexample : (port tpls0 a0 reqExp g0).2.2 ≠ g0 := by
  intro h
  have he : port tpls0 a0 reqExp g0 =
      (.ok (.pair "exported-out"
        "\x7b\"X\":[[1,2],[3,4]],\"y\":[0,1],\"k\":5,\"n\":3,\"power\":2\x7d"),
       [Event.loadTemplates],
       { floatRepr := FloatHook.lambdaOf (some f0) }) := by
    unfold port
    rw [show check reqExp.language reqExp.template none =
      .ok (Method.predict, Language.java, Template.exported) from rfl]
    show portChecked tpls0 a0 reqExp Method.predict Language.java Template.exported g0 = _
    rw [portChecked_exported_eq tpls0 a0 reqExp Method.predict Language.java g0]
    rfl
  rw [he] at h
  have hf := congrArg GlobalState.floatRepr h
  have hf2 : FloatHook.lambdaOf (some f0) = FloatHook.pyDefault := hf
  exact FloatHook.noConfusion hf2

/-- Claim C9, amended: a port call is a pure function of adapter, request and
templates — the adapter and its MetaInfo/ModelData are untouched, and a
failed check or an Attached-mode render leaves the process-global state
unchanged — but an Exported-mode call overwrites the process-global
float-repr hook with a lambda over the call's converter, and that change
persists after the call. -/
theorem c9_frame_amended (tpls : Language → TemplateSet) (a : Adapter)
    (req : Request) (g : GlobalState) :
    (∀ e, check req.language req.template none = .error e →
      (port tpls a req g).2.2 = g) ∧
    (∀ mth lang, check req.language req.template none = .ok (mth, lang, .attached) →
      (port tpls a req g).2.2 = g) ∧
    (∀ mth lang, check req.language req.template none = .ok (mth, lang, .exported) →
      (port tpls a req g).2.2 = { floatRepr := FloatHook.lambdaOf req.converter }) := by
  refine ⟨?_, ?_, ?_⟩
  · intro e hc
    unfold port
    rw [hc]
  · intro mth lang hc
    unfold port
    rw [hc]
    exact (portChecked_state tpls a req mth lang g).1
  · intro mth lang hc
    unfold port
    rw [hc]
    exact (portChecked_state tpls a req mth lang g).2

theorem c9_witness :
    (port tpls0 a0 reqAtt g0).2.2 = g0 ∧
    (port tpls0 a0 reqExp g0).2.2 =
      { floatRepr := FloatHook.lambdaOf reqExp.converter } :=
  ⟨(c9_frame_amended tpls0 a0 reqAtt g0).2.1 Method.predict Language.java rfl,
   (c9_frame_amended tpls0 a0 reqExp g0).2.2 Method.predict Language.java rfl⟩

/-- Claim C10: an Attached-mode port without a converter keyword passes the
capability check, loads templates, and then fails rendering the training
matrix with an unhandled TypeError — None applied as a function — which is
not one of the four declared error kinds. -/
theorem c10_missing_converter_typeerror (tpls : Language → TemplateSet)
    (a : Adapter) (req : Request) (g : GlobalState) (mth : Method)
    (lang : Language) (q : Flo) (r : List Flo) (t : List (List Flo))
    (hc : check req.language req.template none = .ok (mth, lang, .attached))
    (hconv : req.converter = none)
    (hX : a.model_data.X = (q :: r) :: t) :
    port tpls a req g =
      (.error (.typeError "NoneType object is not callable"),
       [Event.loadTemplates], g) ∧
    declaredError (.typeError "NoneType object is not callable") = false := by
  constructor
  · unfold port
    rw [hc]
    show portChecked tpls a req mth lang .attached g = _
    simp only [portChecked, hconv, hX, renderRows_none_headNonempty]
  · rfl

theorem c10_witness :
    port tpls0 a0 reqNoConv g0 =
      (.error (.typeError "NoneType object is not callable"),
       [Event.loadTemplates], g0) ∧
    declaredError (.typeError "NoneType object is not callable") = false :=
  c10_missing_converter_typeerror tpls0 a0 reqNoConv g0 Method.predict
    Language.java 1 [2] [[3, 4]] rfl rfl rfl

end SkPorter
